import Mathlib

/-!
Shallow embedding of the hand-sign detection application
(`detector.py`, `widgets.py`, `utils.py`) and proofs of the spec's
claims about its detection runs and history log.

External effects (file system checks, image decoding, model inference,
the wall clock, video/camera capture) are supplied by an explicit
environment `Env`; the embedded functions are direct translations of
the Python control flow, with Python exceptions rendered as
`Except String` errors and the detector's mutable attributes
(`results`, `current_frame`, `detection_history`) threaded as an
explicit `DetectorState`.
-/

namespace HandSign

/-- One bounding box of a detection result (`box` in `results[0].boxes`);
only the class id (`int(box.cls)`) is inspected by the code under study. -/
structure Box where
  cls : Int
  deriving DecidableEq, Repr

/-- A pixel buffer: either a raw decoded frame (identified abstractly) or
an annotated copy produced by `results[0].plot()`, which draws the boxes
onto a copy of the original image. -/
inductive Img where
  | raw (id : Nat) : Img
  | annotated (base : Img) (boxes : List Box) : Img
  deriving DecidableEq, Repr

/-- The per-frame inference output `results[0]`: it retains the original
image and the list of boxes. -/
structure DetResult where
  orig : Img
  boxes : List Box
  deriving DecidableEq, Repr

/-- `results[0].plot()`: draw the boxes onto a copy of the original image. -/
def DetResult.plot (r : DetResult) : Img :=
  Img.annotated r.orig r.boxes

/-- One entry of `detection_history`, the dict built at the end of a run.
Image runs populate `detections` and `classes`; video/webcam runs populate
`frames`. -/
structure DetectionRecord where
  type : String
  source : String
  timestamp : String
  detections : Option Nat
  frames : Option Nat
  processing_time : Nat
  classes : Option (List Int)
  deriving DecidableEq, Repr

/-- The mutable attributes of a `HandSignDetector` instance. -/
structure DetectorState where
  model_source : String
  results : Option DetResult
  current_frame : Option Img
  detection_history : List DetectionRecord
  deriving Repr

/-- A video file as seen through `cv2.VideoCapture`: whether it opens, its
container-reported properties (`CAP_PROP_FPS`, `CAP_PROP_FRAME_COUNT`,
width, height), and the finite sequence of frames `cap.read()` yields
before reporting failure. -/
structure Video where
  opens : Bool
  fps : Nat
  reported_count : Nat
  width : Nat
  height : Nat
  frames : List Img
  deriving Repr

/-- A camera device as seen through `cv2.VideoCapture(cam_id)`: whether it
opens and the finite sequence of frames `cap.read()` yields before a read
fails.  (A run that terminates observes only finitely many reads.) -/
structure Camera where
  opens : Bool
  frames : List Img
  deriving Repr

/-- The external world: file-system queries, image decoding, the loaded
model's inference function, capture devices, and the clock.  `now` is the
formatted `datetime.now()` of the run and `elapsed` its
`end_time - start_time`, both opaque to the claims. -/
structure Env where
  path_exists : String → Bool
  imread : String → Option Img
  model : Img → List Box
  capture : String → Video
  captureCam : Nat → Camera
  now : String
  elapsed : Nat
  imwrite_ok : String → Img → Bool

/-- File-system effects performed by a run (directory creation, image or
CSV writes, frames muxed into an output video). -/
inductive FsEffect where
  | mkdir (dir : String) : FsEffect
  | writeImg (path : String) (img : Img) : FsEffect
  | writeCsv (path : String) (content : String) : FsEffect
  deriving DecidableEq, Repr

/-- `HandSignDetector.__init__`: with no path or a non-existent path the
default pretrained `yolo11n.pt` is loaded, otherwise the model at
`model_path`; history starts empty and the frame/result slots unset. -/
def detectorInit (path_exists : String → Bool) (model_path : Option String) :
    DetectorState :=
  let src :=
    match model_path with
    | none => "yolo11n.pt"
    | some p => if path_exists p then p else "yolo11n.pt"
  { model_source := src
    results := none
    current_frame := none
    detection_history := [] }

/-- The history record built at the end of `detect_image`. -/
def imageRecord (env : Env) (image_path : String) (boxes : List Box) :
    DetectionRecord :=
  { type := "image"
    source := image_path
    timestamp := env.now
    detections := some boxes.length
    frames := none
    processing_time := env.elapsed
    classes := some (boxes.map Box.cls) }

/-- `HandSignDetector.detect_image`: raises if the file is missing or
unreadable; otherwise runs one inference, stores the *unannotated copy*
`img_display = img.copy()` in `current_frame`, appends one record, and
returns the annotated image together with `results[0]`. -/
def detect_image (env : Env) (st : DetectorState) (image_path : String) :
    Except String (Img × DetResult) × DetectorState :=
  if ¬ env.path_exists image_path then
    (.error ("找不到图片文件: " ++ image_path), st)
  else
    match env.imread image_path with
    | none => (.error ("无法读取图片: " ++ image_path), st)
    | some img =>
      let img_display := img
      let boxes := env.model img
      let results0 : DetResult := ⟨img, boxes⟩
      let annotated_img := results0.plot
      let info := imageRecord env image_path boxes
      let st' : DetectorState :=
        { st with
          results := some results0
          current_frame := some img_display
          detection_history := st.detection_history ++ [info] }
      (.ok (annotated_img, results0), st')

/-- The history record built at the end of a video run; `frames` is the
container-reported `frame_count`, never the number of frames processed. -/
def videoRecord (env : Env) (video_path : String) (reported : Nat) :
    DetectionRecord :=
  { type := "video"
    source := video_path
    timestamp := env.now
    detections := none
    frames := some reported
    processing_time := env.elapsed
    classes := none }

/-- The frame loop of `HandSignDetector.detect_video`.  Per frame: infer,
accumulate `results[0]`, plot, optionally mux to the output file, update
`current_frame`/`results`, then compute
`progress = frame_idx / frame_count * 100`, which raises
`ZeroDivisionError` when the container reported zero frames. -/
def detectVideoLoop (env : Env) (reported : Nat) (writeOut : Bool)
    (frames : List Img) (st : DetectorState) (acc : List DetResult)
    (outw : List Img) :
    Except String Unit × DetectorState × List DetResult × List Img :=
  match frames with
  | [] => (.ok (), st, acc, outw)
  | f :: rest =>
    let boxes := env.model f
    let r : DetResult := ⟨f, boxes⟩
    let annotated_frame := r.plot
    let outw' := if writeOut then outw ++ [annotated_frame] else outw
    let st' : DetectorState :=
      { st with current_frame := some annotated_frame, results := some r }
    if reported = 0 then
      (.error "ZeroDivisionError: division by zero", st', acc ++ [r], outw')
    else
      detectVideoLoop env reported writeOut rest st' (acc ++ [r]) outw'

/-- `HandSignDetector.detect_video`: raises if the file is missing or the
capture does not open; runs the frame loop; on normal exit appends one
record whose `frames` field is the container-reported count, and returns
`current_frame` with the accumulated per-frame results. -/
def detect_video (env : Env) (st : DetectorState) (video_path : String)
    (output_path : Option String) :
    Except String (Option Img × List DetResult) × DetectorState :=
  if ¬ env.path_exists video_path then
    (.error ("找不到视频文件: " ++ video_path), st)
  else
    let v := env.capture video_path
    if ¬ v.opens then
      (.error ("无法打开视频: " ++ video_path), st)
    else
      match detectVideoLoop env v.reported_count output_path.isSome
          v.frames st [] [] with
      | (.error e, st', _, _) => (.error e, st')
      | (.ok (), st', acc, _) =>
        let info := videoRecord env video_path v.reported_count
        let st'' :=
          { st' with detection_history := st'.detection_history ++ [info] }
        (.ok (st''.current_frame, acc), st'')

/-- The frame loop of `VideoDetectionWorker.run` (`widgets.py`): same
per-frame work as `detect_video`'s loop but it checks the cooperative
`is_running` flag at the top of each iteration and does not touch the
detector's `current_frame`/`results` slots.  `running i` is the value of
the flag observed at the `i`-th check. -/
def workerVideoLoop (env : Env) (reported : Nat) (running : Nat → Bool)
    (frames : List Img) (acc : List DetResult) (idx : Nat) :
    Except String Unit × List DetResult :=
  match frames with
  | [] => (.ok (), acc)
  | f :: rest =>
    if ¬ running idx then (.ok (), acc)
    else
      let boxes := env.model f
      let r : DetResult := ⟨f, boxes⟩
      if reported = 0 then
        (.error "ZeroDivisionError: division by zero", acc ++ [r])
      else
        workerVideoLoop env reported running rest (acc ++ [r]) (idx + 1)

/-- `VideoDetectionWorker.run`: opens the capture (emitting an error
signal on failure), runs the cooperative loop, and on normal exit —
whether end-of-stream or early stop — appends one record whose `frames`
field is the container-reported count.  Returns the emitted error signal
(if any) and the detector state. -/
def videoWorkerRun (env : Env) (st : DetectorState) (video_path : String)
    (running : Nat → Bool) : Option String × DetectorState :=
  let v := env.capture video_path
  if ¬ v.opens then
    (some ("无法打开视频: " ++ video_path), st)
  else
    match workerVideoLoop env v.reported_count running v.frames [] 0 with
    | (.error e, _) => (some e, st)
    | (.ok (), _) =>
      let info := videoRecord env video_path v.reported_count
      (none, { st with detection_history := st.detection_history ++ [info] })

/-- The history record built at the end of a webcam run. -/
def webcamRecord (env : Env) (cam_id : Nat) (frame_count : Nat) :
    DetectionRecord :=
  { type := "webcam"
    source := "摄像头 ID: " ++ toString cam_id
    timestamp := env.now
    detections := none
    frames := some frame_count
    processing_time := env.elapsed
    classes := none }

/-- The frame loop of `HandSignDetector.detect_webcam`: at each iteration
the optional `stop_signal` is consulted first; then a frame is read (the
loop exits when the read fails); the frame is inferred, plotted, stored in
`current_frame`/`results`, and `frame_count` incremented.  Returns the
state and the final `frame_count`. -/
def webcamLoop (env : Env) (stop_signal : Option (Nat → Bool))
    (frames : List Img) (st : DetectorState) (frame_count : Nat) :
    DetectorState × Nat :=
  match frames with
  | [] => (st, frame_count)
  | f :: rest =>
    let stopNow :=
      match stop_signal with
      | none => false
      | some s => s frame_count
    if stopNow then (st, frame_count)
    else
      let boxes := env.model f
      let r : DetResult := ⟨f, boxes⟩
      let annotated_frame := r.plot
      let st' : DetectorState :=
        { st with current_frame := some annotated_frame, results := some r }
      webcamLoop env stop_signal rest st' (frame_count + 1)

/-- `HandSignDetector.detect_webcam`: raises if the camera does not open;
otherwise runs the loop and then appends one record *unconditionally*,
even when `frame_count` is zero.  Returns `(current_frame, results)` and
the state. -/
def detect_webcam (env : Env) (st : DetectorState) (cam_id : Nat)
    (stop_signal : Option (Nat → Bool)) :
    Except String (Option Img × Option DetResult) × DetectorState :=
  let cam := env.captureCam cam_id
  if ¬ cam.opens then
    (.error ("无法打开摄像头ID: " ++ toString cam_id), st)
  else
    let (st', frame_count) := webcamLoop env stop_signal cam.frames st 0
    let info := webcamRecord env cam_id frame_count
    let st'' :=
      { st' with detection_history := st'.detection_history ++ [info] }
    (.ok (st''.current_frame, st''.results), st'')

/-- The frame loop of `WebcamDetectionThread.run` (`widgets.py`): the
cooperative `self.running` flag is checked at the top of each iteration
(`running i` is its observed value at the `i`-th check); frames are
inferred and emitted via the `frame_ready` signal without touching the
detector's slots.  Returns the final `frame_count`. -/
def webcamThreadLoop (running : Nat → Bool) (frames : List Img)
    (frame_count : Nat) : Nat :=
  match frames with
  | [] => frame_count
  | _ :: rest =>
    if ¬ running frame_count then frame_count
    else webcamThreadLoop running rest (frame_count + 1)

/-- `WebcamDetectionThread.run`: if the camera does not open, emit an
error signal and return with no record; otherwise run the loop and append
a record only when `frame_count > 0`.  Returns the emitted error signal,
the detector state, and the final `frame_count`. -/
def webcamThreadRun (env : Env) (st : DetectorState) (cam_id : Nat)
    (running : Nat → Bool) : Option String × DetectorState × Nat :=
  let cam := env.captureCam cam_id
  if ¬ cam.opens then
    (some ("无法打开摄像头 ID: " ++ toString cam_id), st, 0)
  else
    let frame_count := webcamThreadLoop running cam.frames 0
    if frame_count > 0 then
      let info := webcamRecord env cam_id frame_count
      (none, { st with detection_history := st.detection_history ++ [info] },
        frame_count)
    else
      (none, st, frame_count)

/-- `HandSignDetector.save_current_frame`: returns `False` when no frame is
held; otherwise creates the target directory if needed and writes the
held frame with `cv2.imwrite`. -/
def save_current_frame (env : Env) (st : DetectorState) (save_path : String)
    (save_dir : String) : Bool × List FsEffect :=
  match st.current_frame with
  | none => (false, [])
  | some f =>
    let mk : List FsEffect :=
      if save_dir ≠ "" ∧ ¬ env.path_exists save_dir then
        [FsEffect.mkdir save_dir]
      else []
    (env.imwrite_ok save_path f, mk ++ [FsEffect.writeImg save_path f])

/-- Serialisation of the history for export; stands in for
`pd.DataFrame(history).to_csv(...)`, whose exact formatting is external
library behaviour no claim depends on. -/
def csvOfHistory (history : List DetectionRecord) : String :=
  String.intercalate "\n"
    (history.map fun r =>
      String.intercalate "," [r.type, r.source, r.timestamp])

/-- `utils.export_detection_history`: returns `False` immediately on an
empty history, performing no file-system effect at all; otherwise ensures
the target directory exists and writes the CSV (UTF-8 with BOM),
returning `True`. -/
def export_detection_history (env : Env) (history : List DetectionRecord)
    (export_path : String) (export_dir : String) : Bool × List FsEffect :=
  if history.isEmpty then (false, [])
  else
    let mk : List FsEffect :=
      if export_dir ≠ "" ∧ ¬ env.path_exists export_dir then
        [FsEffect.mkdir export_dir]
      else []
    (true, mk ++ [FsEffect.writeCsv export_path (csvOfHistory history)])

/-- Outcome of `HistoryTab.clear_history`, identifying which dialog the
method shows: the "历史记录已经为空" (already empty) information box, the
"清空完成" confirmation after wiping, or nothing changed because the user
declined the confirmation question. -/
inductive ClearOutcome where
  | alreadyEmpty : ClearOutcome
  | cleared : ClearOutcome
  | cancelled : ClearOutcome
  deriving DecidableEq, Repr

/-- `HistoryTab.clear_history`: on an empty history it shows the
"already empty" information dialog and returns without touching the log;
otherwise it asks for confirmation and, only if confirmed, replaces the
whole log with `[]`. -/
def clear_history (confirm : Bool) (st : DetectorState) :
    ClearOutcome × DetectorState :=
  if st.detection_history.isEmpty then (.alreadyEmpty, st)
  else if confirm then (.cleared, { st with detection_history := [] })
  else (.cancelled, st)

/-- `HistoryTab.export_history`: with an empty history it shows the
"没有历史数据可导出" failure dialog and returns before any file dialog or
write; otherwise, if the user picked a path, it delegates to
`export_detection_history`.  Returns whether the empty-history failure
dialog was shown, and the file-system effects performed. -/
def export_history_tab (env : Env) (st : DetectorState)
    (chosen : Option (String × String)) : Bool × List FsEffect :=
  if st.detection_history.isEmpty then (true, [])
  else
    match chosen with
    | none => (false, [])
    | some (path, dir) =>
      (false, (export_detection_history env st.detection_history path dir).2)

/-- Every operation of the application that can touch the shared
`detection_history` list: the three detector runs, the two GUI worker
loops, the history tab's clear and export actions, and
`save_current_frame` (which reads only the frame slot). -/
inductive HistoryOp where
  | imageRun (image_path : String) : HistoryOp
  | videoRun (video_path : String) (output_path : Option String) : HistoryOp
  | webcamRun (cam_id : Nat) (stop_signal : Option (Nat → Bool)) : HistoryOp
  | workerVideo (video_path : String) (running : Nat → Bool) : HistoryOp
  | threadWebcam (cam_id : Nat) (running : Nat → Bool) : HistoryOp
  | clearOp (confirm : Bool) : HistoryOp
  | exportOp (chosen : Option (String × String)) : HistoryOp
  | saveFrame (save_path : String) (save_dir : String) : HistoryOp

/-- The detector state after performing one operation. -/
def applyOp (env : Env) (op : HistoryOp) (st : DetectorState) :
    DetectorState :=
  match op with
  | .imageRun p => (detect_image env st p).2
  | .videoRun p o => (detect_video env st p o).2
  | .webcamRun c s => (detect_webcam env st c s).2
  | .workerVideo p r => (videoWorkerRun env st p r).2
  | .threadWebcam c r => (webcamThreadRun env st c r).2.1
  | .clearOp c => (clear_history c st).2
  | .exportOp ch =>
    let _ := export_history_tab env st ch
    st
  | .saveFrame p d =>
    let _ := save_current_frame env st p d
    st

/-! ### Helper lemmas about the loops -/

/-- The frame loop of `detect_video` never touches `detection_history`. -/
theorem detectVideoLoop_history (env : Env) (reported : Nat) (writeOut : Bool)
    (frames : List Img) (st : DetectorState) (acc : List DetResult)
    (outw : List Img) :
    (detectVideoLoop env reported writeOut frames st acc outw).2.1.detection_history
      = st.detection_history := by
  induction frames generalizing st acc outw with
  | nil => rfl
  | cons f rest ih =>
    simp only [detectVideoLoop]
    split
    · rfl
    · exact ih _ _ _

/-- The frame loop of `detect_webcam` never touches `detection_history`. -/
theorem webcamLoop_history (env : Env) (stop_signal : Option (Nat → Bool))
    (frames : List Img) (st : DetectorState) (frame_count : Nat) :
    (webcamLoop env stop_signal frames st frame_count).1.detection_history
      = st.detection_history := by
  induction frames generalizing st frame_count with
  | nil => rfl
  | cons f rest ih =>
    simp only [webcamLoop]
    split
    · rfl
    · exact ih _ _

/-- Final `current_frame` of `detect_video`'s loop on a nonempty frame
list with a nonzero container count: the annotated last frame. -/
theorem detectVideoLoop_current_frame (env : Env) (reported : Nat)
    (writeOut : Bool) (frames : List Img) (st : DetectorState)
    (acc : List DetResult) (outw : List Img) (hn : reported ≠ 0)
    (h : frames ≠ []) :
    (detectVideoLoop env reported writeOut frames st acc outw).2.1.current_frame
      = some (DetResult.plot
          ⟨frames.getLast h, env.model (frames.getLast h)⟩) := by
  induction frames generalizing st acc outw with
  | nil => exact absurd rfl h
  | cons f rest ih =>
    simp only [detectVideoLoop]
    rw [if_neg hn]
    cases rest with
    | nil => simp [detectVideoLoop, List.getLast]
    | cons g rest' =>
      rw [ih _ _ _ (List.cons_ne_nil g rest')]
      simp [List.getLast_cons]

/-- Final `current_frame` of `detect_webcam`'s loop without a stop signal
on a nonempty frame list: the annotated last frame. -/
theorem webcamLoop_none_current_frame (env : Env) (frames : List Img)
    (st : DetectorState) (frame_count : Nat) (h : frames ≠ []) :
    (webcamLoop env none frames st frame_count).1.current_frame
      = some (DetResult.plot
          ⟨frames.getLast h, env.model (frames.getLast h)⟩) := by
  induction frames generalizing st frame_count with
  | nil => exact absurd rfl h
  | cons f rest ih =>
    simp only [webcamLoop]
    rw [if_neg Bool.false_ne_true]
    cases rest with
    | nil => simp [webcamLoop, List.getLast]
    | cons g rest' =>
      rw [ih _ _ (List.cons_ne_nil g rest')]
      simp [List.getLast_cons]

/-! ### Concrete environments used by witnesses -/

/-- A baseline environment in which nothing exists and nothing opens. -/
def trivialEnv : Env :=
  { path_exists := fun _ => false
    imread := fun _ => none
    model := fun _ => []
    capture := fun _ =>
      { opens := false, fps := 0, reported_count := 0, width := 0,
        height := 0, frames := [] }
    captureCam := fun _ => { opens := false, frames := [] }
    now := "2025-01-01 00:00:00"
    elapsed := 1
    imwrite_ok := fun _ _ => true }

/-- A fresh detector with an empty history. -/
def st0 : DetectorState := detectorInit (fun _ => false) none

/-! ### Claims -/

/-- C8: when the detector is constructed with an absent (`None`) or
non-existent model path it loads the default pretrained `yolo11n.pt`;
when the path exists it loads the model at that path. -/
theorem C8_model_fallback (pe : String → Bool) (mp : Option String) :
    ((mp = none ∨ ∃ p, mp = some p ∧ pe p = false) →
      (detectorInit pe mp).model_source = "yolo11n.pt") ∧
    (∀ p, mp = some p → pe p = true →
      (detectorInit pe mp).model_source = p) := by
  constructor
  · rintro (rfl | ⟨p, rfl, hp⟩) <;> simp [detectorInit, *]
  · rintro p rfl hp
    simp [detectorInit, hp]

/-- Witness for C8 at concrete paths: an existing custom path is kept, a
missing one falls back to the default. -/
theorem C8_model_fallback_witness :
    (detectorInit (fun p => p = "best.pt") (some "best.pt")).model_source
        = "best.pt" ∧
    (detectorInit (fun _ => false) (some "missing.pt")).model_source
        = "yolo11n.pt" :=
  ⟨(C8_model_fallback (fun p => p = "best.pt") (some "best.pt")).2
      "best.pt" rfl (by decide),
   (C8_model_fallback (fun _ => false) (some "missing.pt")).1
      (Or.inr ⟨"missing.pt", rfl, rfl⟩)⟩

/-- C6: clearing the history when the log is empty is a no-op that leaves
the state unchanged and reports the explicit "already empty" outcome
rather than an error. -/
theorem C6_clear_empty (confirm : Bool) (st : DetectorState)
    (h : st.detection_history = []) :
    clear_history confirm st = (ClearOutcome.alreadyEmpty, st) := by
  simp [clear_history, h]

/-- Witness for C6 on a fresh detector. -/
theorem C6_clear_empty_witness :
    clear_history true st0 = (ClearOutcome.alreadyEmpty, st0) :=
  C6_clear_empty true st0 rfl

/-- C7: exporting an empty history fails — `export_detection_history`
returns `False` with no file-system effect, and the history tab shows its
failure dialog and performs no write either. -/
theorem C7_export_empty (env : Env) (path dir : String)
    (st : DetectorState) (chosen : Option (String × String))
    (h : st.detection_history = []) :
    export_detection_history env [] path dir = (false, []) ∧
    export_history_tab env st chosen = (true, []) := by
  constructor
  · simp [export_detection_history]
  · simp [export_history_tab, h]

/-- Witness for C7 on a fresh detector. -/
theorem C7_export_empty_witness :
    export_detection_history trivialEnv [] "h.csv" "" = (false, []) ∧
    export_history_tab trivialEnv st0 (some ("h.csv", "")) = (true, []) :=
  C7_export_empty trivialEnv "h.csv" "" st0 (some ("h.csv", "")) rfl

/-- An environment whose image decoding and inference always succeed:
every path exists, `imread` yields the raw buffer `Img.raw 7`, and the
model reports two boxes of classes 2 and 5. -/
def imgEnv : Env :=
  { trivialEnv with
    path_exists := fun _ => true
    imread := fun _ => some (Img.raw 7)
    model := fun _ => [⟨2⟩, ⟨5⟩] }

/-- C3: a successful image run appends exactly one record of kind
"image", whose detection count is the number of boxes the model returned
for that image, and returns the annotated image with the result. -/
theorem C3_image_one_record (env : Env) (st : DetectorState) (path : String)
    (img : Img) (h1 : env.path_exists path = true)
    (h2 : env.imread path = some img) :
    (detect_image env st path).1 =
      .ok ((DetResult.mk img (env.model img)).plot,
           DetResult.mk img (env.model img)) ∧
    (detect_image env st path).2.detection_history =
      st.detection_history ++ [imageRecord env path (env.model img)] ∧
    (imageRecord env path (env.model img)).type = "image" ∧
    (imageRecord env path (env.model img)).detections =
      some (env.model img).length := by
  refine ⟨?_, ?_, rfl, rfl⟩ <;> simp [detect_image, h1, h2]

/-- Witness for C3 on a concrete successful image run. -/
theorem C3_image_one_record_witness :
    (detect_image imgEnv st0 "a.jpg").1 =
      .ok ((DetResult.mk (Img.raw 7) (imgEnv.model (Img.raw 7))).plot,
           DetResult.mk (Img.raw 7) (imgEnv.model (Img.raw 7))) ∧
    (detect_image imgEnv st0 "a.jpg").2.detection_history =
      st0.detection_history ++
        [imageRecord imgEnv "a.jpg" (imgEnv.model (Img.raw 7))] ∧
    (imageRecord imgEnv "a.jpg" (imgEnv.model (Img.raw 7))).type = "image" ∧
    (imageRecord imgEnv "a.jpg" (imgEnv.model (Img.raw 7))).detections =
      some (imgEnv.model (Img.raw 7)).length :=
  C3_image_one_record imgEnv st0 "a.jpg" (Img.raw 7) rfl rfl

/-- C4: when the camera fails to open, `detect_webcam` raises immediately
with the detector state untouched (so no record is appended), and the GUI
webcam thread emits its error signal and returns with no record and zero
frames. -/
theorem C4_webcam_open_fail (env : Env) (st : DetectorState) (cam_id : Nat)
    (stop : Option (Nat → Bool)) (running : Nat → Bool)
    (h : (env.captureCam cam_id).opens = false) :
    detect_webcam env st cam_id stop =
      (.error ("无法打开摄像头ID: " ++ toString cam_id), st) ∧
    webcamThreadRun env st cam_id running =
      (some ("无法打开摄像头 ID: " ++ toString cam_id), st, 0) := by
  constructor <;> simp [detect_webcam, webcamThreadRun, h]

/-- Witness for C4 on a camera that does not open. -/
theorem C4_webcam_open_fail_witness :
    detect_webcam trivialEnv st0 0 none =
      (.error ("无法打开摄像头ID: " ++ toString 0), st0) ∧
    webcamThreadRun trivialEnv st0 0 (fun _ => true) =
      (some ("无法打开摄像头 ID: " ++ toString 0), st0, 0) :=
  C4_webcam_open_fail trivialEnv st0 0 none (fun _ => true) rfl

/-- An environment whose camera opens but whose very first read fails, so
a webcam run processes zero frames. -/
def openCamEnv : Env :=
  { trivialEnv with captureCam := fun _ => { opens := true, frames := [] } }

/-- C2 counterexample: `HandSignDetector.detect_webcam` on a camera that
opens but yields no frame processes zero frames, yet it still appends a
history record (with `frames = 0`), contradicting the claim that a
zero-frame run appends no record. -/
theorem C2_counterexample :
    (webcamLoop openCamEnv none (openCamEnv.captureCam 0).frames st0 0).2
        = 0 ∧
    (detect_webcam openCamEnv st0 0 none).2.detection_history =
      [webcamRecord openCamEnv 0 0] ∧
    (webcamRecord openCamEnv 0 0).frames = some 0 :=
  ⟨rfl, rfl, rfl⟩

/-- C2 (amended): for GUI webcam runs (`WebcamDetectionThread.run`) whose
camera opens, no error is emitted and a record is appended iff at least
one frame was processed; `HandSignDetector.detect_webcam`, by contrast,
appends one record unconditionally, with `frames` equal to the processed
count. -/
theorem C2_thread_record_iff (env : Env) (st : DetectorState) (cam_id : Nat)
    (running : Nat → Bool) (h : (env.captureCam cam_id).opens = true) :
    (webcamThreadRun env st cam_id running).1 = none ∧
    ((webcamThreadRun env st cam_id running).2.2 > 0 →
      (webcamThreadRun env st cam_id running).2.1.detection_history =
        st.detection_history ++
          [webcamRecord env cam_id
            (webcamThreadRun env st cam_id running).2.2]) ∧
    ((webcamThreadRun env st cam_id running).2.2 = 0 →
      (webcamThreadRun env st cam_id running).2.1 = st) ∧
    (∀ stop, (detect_webcam env st cam_id stop).2.detection_history =
      st.detection_history ++
        [webcamRecord env cam_id
          (webcamLoop env stop (env.captureCam cam_id).frames st 0).2]) := by
  have h4 : ∀ stop,
      (detect_webcam env st cam_id stop).2.detection_history =
        st.detection_history ++
          [webcamRecord env cam_id
            (webcamLoop env stop (env.captureCam cam_id).frames st 0).2] := by
    intro stop
    have hl := webcamLoop_history env stop (env.captureCam cam_id).frames st 0
    rcases he : webcamLoop env stop (env.captureCam cam_id).frames st 0
      with ⟨st', n⟩
    rw [he] at hl
    simp only [Prod.fst] at hl
    simp only [detect_webcam]
    rw [if_neg (by simp [h]), he]
    simp [hl]
  simp only [webcamThreadRun]
  rw [if_neg (by simp [h])]
  by_cases hn : webcamThreadLoop running (env.captureCam cam_id).frames 0 > 0
  · rw [if_pos hn]
    exact ⟨rfl, fun _ => rfl,
      fun h0 => absurd h0 (Nat.pos_iff_ne_zero.mp hn), h4⟩
  · rw [if_neg hn]
    exact ⟨rfl, fun hgt => absurd hgt hn, fun _ => rfl, h4⟩

/-- Witness for C2's amended theorem: a camera that opens with an
immediately failing read gives a zero-frame GUI run that appends nothing,
while `detect_webcam` appends its record. -/
theorem C2_thread_record_iff_witness :
    (webcamThreadRun openCamEnv st0 0 (fun _ => true)).1 = none ∧
    ((webcamThreadRun openCamEnv st0 0 (fun _ => true)).2.2 > 0 →
      (webcamThreadRun openCamEnv st0 0 (fun _ => true)).2.1.detection_history =
        st0.detection_history ++
          [webcamRecord openCamEnv 0
            (webcamThreadRun openCamEnv st0 0 (fun _ => true)).2.2]) ∧
    ((webcamThreadRun openCamEnv st0 0 (fun _ => true)).2.2 = 0 →
      (webcamThreadRun openCamEnv st0 0 (fun _ => true)).2.1 = st0) ∧
    (∀ stop,
      (detect_webcam openCamEnv st0 0 stop).2.detection_history =
        st0.detection_history ++
          [webcamRecord openCamEnv 0
            (webcamLoop openCamEnv stop (openCamEnv.captureCam 0).frames
              st0 0).2]) :=
  C2_thread_record_iff openCamEnv st0 0 (fun _ => true) rfl

/-- With a nonzero container-reported count, `detect_video`'s loop never
raises: the division in the progress computation is well defined. -/
theorem detectVideoLoop_ok (env : Env) (reported : Nat) (writeOut : Bool)
    (frames : List Img) (st : DetectorState) (acc : List DetResult)
    (outw : List Img) (hn : reported ≠ 0) :
    (detectVideoLoop env reported writeOut frames st acc outw).1 = .ok () := by
  induction frames generalizing st acc outw with
  | nil => rfl
  | cons f rest ih =>
    simp only [detectVideoLoop]
    rw [if_neg hn]
    exact ih _ _ _

/-- An environment in which every source succeeds: files exist, images
decode to `Img.raw 7`, the model reports one box of class 2, the video
opens with a container-reported count of 2 and two readable frames, and
the camera opens with one readable frame. -/
def fullEnv : Env :=
  { path_exists := fun _ => true
    imread := fun _ => some (Img.raw 7)
    model := fun _ => [⟨2⟩]
    capture := fun _ =>
      { opens := true, fps := 30, reported_count := 2, width := 4,
        height := 3, frames := [Img.raw 10, Img.raw 11] }
    captureCam := fun _ => { opens := true, frames := [Img.raw 20] }
    now := "2025-01-01 00:00:00"
    elapsed := 1
    imwrite_ok := fun _ _ => true }

/-- C1: whenever a video run returns normally — `detect_video` reading to
end-of-stream, or the GUI worker under *any* cooperative-stop schedule —
the single appended record carries the container-reported frame count
(`CAP_PROP_FRAME_COUNT`), never the number of frames actually
processed. -/
theorem C1_video_frames_total (env : Env) (st : DetectorState)
    (p : String) (o : Option String) (running : Nat → Bool) :
    (∀ out st', detect_video env st p o = (.ok out, st') →
      st'.detection_history =
        st.detection_history ++
          [videoRecord env p (env.capture p).reported_count]) ∧
    (∀ st', videoWorkerRun env st p running = (none, st') →
      st'.detection_history =
        st.detection_history ++
          [videoRecord env p (env.capture p).reported_count]) ∧
    (videoRecord env p (env.capture p).reported_count).frames =
      some (env.capture p).reported_count := by
  refine ⟨?_, ?_, rfl⟩
  · intro out st' hrun
    have hl := detectVideoLoop_history env (env.capture p).reported_count
      o.isSome (env.capture p).frames st [] []
    simp only [detect_video] at hrun
    split at hrun
    · simp at hrun
    · split at hrun
      · simp at hrun
      · rcases he : detectVideoLoop env (env.capture p).reported_count
            o.isSome (env.capture p).frames st [] [] with ⟨r, st1, acc, outw⟩
        rw [he] at hrun hl
        cases r with
        | error e => simp at hrun
        | ok u =>
          cases u
          simp only at hrun hl
          injection hrun with _ hst
          rw [← hst]
          simpa using congrArg (· ++ [videoRecord env p
            (env.capture p).reported_count]) hl
  · intro st' hrun
    simp only [videoWorkerRun] at hrun
    split at hrun
    · simp at hrun
    · split at hrun
      · simp at hrun
      · injection hrun with _ hst
        rw [← hst]

/-- Witness for C1: a completed run and a run stopped after one of two
frames both record the container-reported count 2. -/
theorem C1_video_frames_total_witness :
    (detect_video fullEnv st0 "v.mp4" none).2.detection_history =
      st0.detection_history ++
        [videoRecord fullEnv "v.mp4"
          (fullEnv.capture "v.mp4").reported_count] ∧
    (videoWorkerRun fullEnv st0 "v.mp4"
        (fun i => decide (i < 1))).2.detection_history =
      st0.detection_history ++
        [videoRecord fullEnv "v.mp4"
          (fullEnv.capture "v.mp4").reported_count] ∧
    (videoRecord fullEnv "v.mp4"
        (fullEnv.capture "v.mp4").reported_count).frames =
      some (fullEnv.capture "v.mp4").reported_count := by
  obtain ⟨ha, hb, hc⟩ := C1_video_frames_total fullEnv st0 "v.mp4" none
    (fun i => decide (i < 1))
  exact ⟨ha _ _ rfl, hb _ rfl, hc⟩

/-- An environment whose video opens and yields a frame while its
container reports a frame count of zero. -/
def zeroCountEnv : Env :=
  { trivialEnv with
    path_exists := fun _ => true
    capture := fun _ =>
      { opens := true, fps := 30, reported_count := 0, width := 1,
        height := 1, frames := [Img.raw 0] } }

/-- C10: on a video whose container reports zero frames while a frame can
still be read, the unguarded progress computation divides by zero: the
first iteration of `detect_video` raises (appending no record), and the
GUI worker surfaces the same error through its error signal. -/
theorem C10_progress_div_zero (env : Env) (st : DetectorState) (p : String)
    (o : Option String) (running : Nat → Bool) (f : Img) (rest : List Img)
    (h1 : env.path_exists p = true)
    (h2 : (env.capture p).opens = true)
    (h3 : (env.capture p).reported_count = 0)
    (h4 : (env.capture p).frames = f :: rest)
    (h5 : running 0 = true) :
    (detect_video env st p o).1 =
      .error "ZeroDivisionError: division by zero" ∧
    (detect_video env st p o).2.detection_history = st.detection_history ∧
    videoWorkerRun env st p running =
      (some "ZeroDivisionError: division by zero", st) := by
  refine ⟨?_, ?_, ?_⟩ <;>
    simp [detect_video, videoWorkerRun, detectVideoLoop, workerVideoLoop,
      h1, h2, h3, h4, h5]

/-- Witness for C10 on a concrete zero-count video. -/
theorem C10_progress_div_zero_witness :
    (detect_video zeroCountEnv st0 "z.mp4" none).1 =
      .error "ZeroDivisionError: division by zero" ∧
    (detect_video zeroCountEnv st0 "z.mp4" none).2.detection_history =
      st0.detection_history ∧
    videoWorkerRun zeroCountEnv st0 "z.mp4" (fun _ => true) =
      (some "ZeroDivisionError: division by zero", st0) :=
  C10_progress_div_zero zeroCountEnv st0 "z.mp4" none (fun _ => true)
    (Img.raw 0) [] rfl rfl rfl rfl rfl

/-- C9: after a successful image run the `current_frame` slot holds the
unannotated copy of the original input (so `save_current_frame` invoked
right after writes the original without overlays), while the annotated
image — a different value — is what the run returns; after a video run
(nonzero container count) or a webcam run (no stop) the slot holds the
last annotated frame. -/
theorem C9_current_frame_slot (env : Env) (st : DetectorState)
    (ip vp : String) (n : Nat) (cam_id : Nat) (o : Option String)
    (sp sd : String)
    (h1 : env.path_exists ip = true)
    (h2 : env.imread ip = some (Img.raw n))
    (h3 : env.path_exists vp = true)
    (h4 : (env.capture vp).opens = true)
    (h5 : (env.capture vp).reported_count ≠ 0)
    (h6 : (env.capture vp).frames ≠ [])
    (h7 : (env.captureCam cam_id).opens = true)
    (h8 : (env.captureCam cam_id).frames ≠ []) :
    (detect_image env st ip).2.current_frame = some (Img.raw n) ∧
    (detect_image env st ip).1 =
      .ok (Img.annotated (Img.raw n) (env.model (Img.raw n)),
           ⟨Img.raw n, env.model (Img.raw n)⟩) ∧
    Img.annotated (Img.raw n) (env.model (Img.raw n)) ≠ Img.raw n ∧
    (∃ mk, (save_current_frame env (detect_image env st ip).2 sp sd).2 =
      mk ++ [FsEffect.writeImg sp (Img.raw n)]) ∧
    (detect_video env st vp o).2.current_frame =
      some (DetResult.plot ⟨(env.capture vp).frames.getLast h6,
        env.model ((env.capture vp).frames.getLast h6)⟩) ∧
    (detect_webcam env st cam_id none).2.current_frame =
      some (DetResult.plot ⟨(env.captureCam cam_id).frames.getLast h8,
        env.model ((env.captureCam cam_id).frames.getLast h8)⟩) := by
  have hcf : (detect_image env st ip).2.current_frame = some (Img.raw n) := by
    simp [detect_image, h1, h2]
  refine ⟨hcf, ?_, by simp, ?_, ?_, ?_⟩
  · simp [detect_image, h1, h2, DetResult.plot]
  · refine ⟨if sd ≠ "" ∧ ¬ env.path_exists sd then [FsEffect.mkdir sd]
      else [], ?_⟩
    simp only [save_current_frame, hcf]
  · have hok := detectVideoLoop_ok env (env.capture vp).reported_count
      o.isSome (env.capture vp).frames st [] [] h5
    have hc := detectVideoLoop_current_frame env
      (env.capture vp).reported_count o.isSome (env.capture vp).frames
      st [] [] h5 h6
    rcases he : detectVideoLoop env (env.capture vp).reported_count
        o.isSome (env.capture vp).frames st [] [] with ⟨r, st1, acc, outw⟩
    rw [he] at hok hc
    simp only at hok hc
    subst hok
    simp only [detect_video]
    rw [if_neg (by simp [h3]), if_neg (by simp [h4]), he]
    simpa using hc
  · have hc := webcamLoop_none_current_frame env
      (env.captureCam cam_id).frames st 0 h8
    rcases he : webcamLoop env none (env.captureCam cam_id).frames st 0
      with ⟨st1, k⟩
    rw [he] at hc
    simp only at hc
    simp only [detect_webcam]
    rw [if_neg (by simp [h7]), he]
    simpa using hc

/-- Witness for C9 in the all-succeeding environment. -/
theorem C9_current_frame_slot_witness :
    (detect_image fullEnv st0 "a.jpg").2.current_frame =
      some (Img.raw 7) ∧
    (detect_image fullEnv st0 "a.jpg").1 =
      .ok (Img.annotated (Img.raw 7) (fullEnv.model (Img.raw 7)),
           ⟨Img.raw 7, fullEnv.model (Img.raw 7)⟩) ∧
    Img.annotated (Img.raw 7) (fullEnv.model (Img.raw 7)) ≠ Img.raw 7 ∧
    (∃ mk, (save_current_frame fullEnv (detect_image fullEnv st0 "a.jpg").2
        "s.jpg" "").2 = mk ++ [FsEffect.writeImg "s.jpg" (Img.raw 7)]) ∧
    (detect_video fullEnv st0 "v.mp4" none).2.current_frame =
      some (DetResult.plot
        ⟨(fullEnv.capture "v.mp4").frames.getLast (by simp [fullEnv]),
          fullEnv.model
            ((fullEnv.capture "v.mp4").frames.getLast
              (by simp [fullEnv]))⟩) ∧
    (detect_webcam fullEnv st0 0 none).2.current_frame =
      some (DetResult.plot
        ⟨(fullEnv.captureCam 0).frames.getLast (by simp [fullEnv]),
          fullEnv.model
            ((fullEnv.captureCam 0).frames.getLast
              (by simp [fullEnv]))⟩) :=
  C9_current_frame_slot fullEnv st0 "a.jpg" "v.mp4" 7 0 none "s.jpg" ""
    rfl rfl rfl rfl (by decide) (by simp [fullEnv]) rfl (by simp [fullEnv])

/-- C5: the history log only grows except for full clears — every
operation of the application leaves it unchanged, appends exactly one
record at its end, or empties it entirely. -/
theorem C5_history_monotone (env : Env) (op : HistoryOp)
    (st : DetectorState) :
    (applyOp env op st).detection_history = st.detection_history ∨
    (∃ r, (applyOp env op st).detection_history =
      st.detection_history ++ [r]) ∨
    (applyOp env op st).detection_history = [] := by
  cases op with
  | imageRun p =>
    simp only [applyOp, detect_image]
    split
    · exact Or.inl rfl
    · split
      · exact Or.inl rfl
      · exact Or.inr (Or.inl ⟨_, rfl⟩)
  | videoRun p o =>
    simp only [applyOp, detect_video]
    split
    · exact Or.inl rfl
    · split
      · exact Or.inl rfl
      · have hl := detectVideoLoop_history env (env.capture p).reported_count
          o.isSome (env.capture p).frames st [] []
        rcases he : detectVideoLoop env (env.capture p).reported_count
            o.isSome (env.capture p).frames st [] [] with ⟨r, st1, acc, outw⟩
        rw [he] at hl
        simp at hl
        cases r with
        | error e => exact Or.inl hl
        | ok u =>
          cases u
          exact Or.inr (Or.inl
            ⟨videoRecord env p (env.capture p).reported_count,
             by simp [hl]⟩)
  | webcamRun c s =>
    simp only [applyOp, detect_webcam]
    split
    · exact Or.inl rfl
    · have hl := webcamLoop_history env s (env.captureCam c).frames st 0
      rcases he : webcamLoop env s (env.captureCam c).frames st 0
        with ⟨st1, k⟩
      rw [he] at hl
      simp at hl
      exact Or.inr (Or.inl ⟨webcamRecord env c k, by simp [hl]⟩)
  | workerVideo p r =>
    simp only [applyOp, videoWorkerRun]
    split
    · exact Or.inl rfl
    · split
      · exact Or.inl rfl
      · exact Or.inr (Or.inl ⟨_, rfl⟩)
  | threadWebcam c r =>
    simp only [applyOp, webcamThreadRun]
    split
    · exact Or.inl rfl
    · split
      · exact Or.inr (Or.inl ⟨_, rfl⟩)
      · exact Or.inl rfl
  | clearOp c =>
    simp only [applyOp, clear_history]
    split
    · exact Or.inl rfl
    · split
      · exact Or.inr (Or.inr rfl)
      · exact Or.inl rfl
  | exportOp ch => exact Or.inl rfl
  | saveFrame sp sd => exact Or.inl rfl

end HandSign
